import Mathlib

/-!
Verification of `worker_static_ip.py`, a minimal HTTP worker that reports
the machine's public egress IP and echoes request payloads.

The Python source is shallowly embedded: JSON values are an inductive type,
`requests.get` outcomes are an explicit `FetchOutcome`, exceptions are
modelled with `Except`, and `time.time()` is an external clock value passed
to each handler invocation.
-/

namespace Worker

/-- JSON values, as produced by Python's `json.loads` and consumed by
`json.dumps`.  Numbers are modelled as rationals (Python ints and floats
collapse into one constructor; none of the handler logic inspects numeric
representation). -/
inductive Json where
  | null : Json
  | bool (b : Bool) : Json
  | num (q : Rat) : Json
  | str (s : String) : Json
  | arr (elems : List Json) : Json
  | obj (fields : List (String × Json)) : Json
  /-- `float('nan')`, produced by the `NaN` constant Python's `json.loads`
  accepts by default. -/
  | nanConst : Json
  /-- `float('inf')`, from the `Infinity` constant. -/
  | infConst : Json
  /-- `float('-inf')`, from the `-Infinity` constant. -/
  | negInfConst : Json
deriving Repr

/-- Python whitespace characters relevant to `str.strip()` / `int()`
(ASCII subset: space, tab, newline, carriage return, vertical tab,
form feed). -/
def isPyWs (c : Char) : Bool :=
  c = ' ' || c = '\t' || c = '\n' || c = '\x0d' || c = '\x0b' || c = '\x0c'

/-- Python `str.strip()`: remove leading and trailing whitespace. -/
def pyStrip (s : String) : String :=
  String.mk (((s.data.dropWhile isPyWs).reverse.dropWhile isPyWs).reverse)

/-- Numeric value of a list of decimal digit characters. -/
def digitsVal (cs : List Char) : Nat :=
  cs.foldl (fun a c => 10 * a + (c.toNat - 48)) 0

/-- Python `int(s)`: optional surrounding whitespace, optional sign, at
least one decimal digit.  Returns `none` where Python raises `ValueError`.
(Python 3 also accepts `_` separators between digits; no claim touches
that corner, so it is not modelled.) -/
def pyInt (s : String) : Option Int :=
  let cs := (s.data.dropWhile isPyWs).reverse.dropWhile isPyWs |>.reverse
  match cs with
  | [] => none
  | c :: rest =>
    let signed : Int × List Char :=
      if c = '-' then (-1, rest) else if c = '+' then (1, rest) else (1, cs)
    if signed.2 ≠ [] && signed.2.all Char.isDigit then
      some (signed.1 * (digitsVal signed.2 : Int))
    else none

/-- Python truthiness fallback `s or default` for strings: the empty string
is falsy. -/
def pyOrStr (s default : String) : String :=
  if s = "" then default else s

/-! ## IPResolver: `get_public_ip`

```python
def get_public_ip() -> str:
    resp = requests.get(IP_CHECK_URL, timeout=IP_TIMEOUT)
    resp.raise_for_status()
    return resp.text.strip()
```

The outcome of the single outbound `requests.get` is external input:
either the call raises (timeout / connection failure) or it yields a final
HTTP response with a status code and a body.  `Response.raise_for_status`
raises `HTTPError` exactly for status codes in `[400, 600)`. -/

/-- Outcome of the outbound `requests.get` call. -/
inductive FetchOutcome where
  | timeout : FetchOutcome
  | connError : FetchOutcome
  | response (statusCode : Nat) (text : String) : FetchOutcome
deriving Repr, DecidableEq

/-- Model of Python's `repr(exc)` for the exceptions `get_public_ip` can
raise; only its presence in the `error` field matters to the handler. -/
def excRepr : FetchOutcome → String
  | .timeout => "ReadTimeout()"
  | .connError => "ConnectionError()"
  | .response st _ => "HTTPError(" ++ toString st ++ ")"

/-- `get_public_ip`: propagate the request exception, raise on a 4xx/5xx
status (`raise_for_status`), otherwise return the stripped body. -/
def get_public_ip : FetchOutcome → Except String String
  | .timeout => .error (excRepr .timeout)
  | .connError => .error (excRepr .connError)
  | .response st text =>
    if 400 ≤ st ∧ st < 600 then .error (excRepr (.response st text))
    else .ok (pyStrip text)

/-! ## `json.loads`

A recursive-descent parser for the JSON grammar accepted by Python's
`json.loads` (strict mode).  Recursion is bounded by a fuel parameter;
`json_loads` supplies ample fuel, and every concrete evaluation below uses
inputs far smaller than the supplied fuel.  `none` models
`json.JSONDecodeError`. -/

/-- JSON structural whitespace (RFC 8259: space, tab, newline, return). -/
def isJsonWs (c : Char) : Bool :=
  c = ' ' || c = '\t' || c = '\n' || c = '\x0d'

/-- Hexadecimal digit value, if any. -/
def hexVal (c : Char) : Option Nat :=
  if '0' ≤ c ∧ c ≤ '9' then some (c.toNat - 48)
  else if 'a' ≤ c ∧ c ≤ 'f' then some (c.toNat - 87)
  else if 'A' ≤ c ∧ c ≤ 'F' then some (c.toNat - 55)
  else none

/-- Body of a JSON string literal after the opening quote, handling the
escape sequences of the grammar (`\" \\ \/ \b \f \n \r \t \uXXXX`).
Unescaped control characters are rejected, as in strict `json.loads`. -/
def parseStrBody : Nat → List Char → Option (List Char × List Char)
  | 0, _ => none
  | _, [] => none
  | fuel + 1, c :: rest =>
    if c = '\"' then some ([], rest)
    else if c = '\\' then
      match rest with
      | [] => none
      | e :: rest' =>
        let esc : Option (Char × List Char) :=
          if e = '\"' then some ('\"', rest')
          else if e = '\\' then some ('\\', rest')
          else if e = '/' then some ('/', rest')
          else if e = 'b' then some ('\x08', rest')
          else if e = 'f' then some ('\x0c', rest')
          else if e = 'n' then some ('\n', rest')
          else if e = 'r' then some ('\x0d', rest')
          else if e = 't' then some ('\t', rest')
          else if e = 'u' then
            match rest' with
            | h1 :: h2 :: h3 :: h4 :: rest'' =>
              match hexVal h1, hexVal h2, hexVal h3, hexVal h4 with
              | some a, some b, some c', some d =>
                let n := ((a * 16 + b) * 16 + c') * 16 + d
                -- Surrogate halves decode to U+FFFD-like placeholders in
                -- Python only when unpaired; pairing is not modelled (no
                -- claim involves astral characters).
                if n < 0xd800 ∨ 0xe000 ≤ n then
                  some (Char.ofNat n, rest'')
                else some ('\xfd', rest'')
              | _, _, _, _ => none
            | _ => none
          else none
        match esc with
        | none => none
        | some (ch, rest'') =>
          (parseStrBody fuel rest'').map (fun p => (ch :: p.1, p.2))
    else if c.toNat < 0x20 then none
    else (parseStrBody fuel rest).map (fun p => (c :: p.1, p.2))

/-- `10 ^ e` over the rationals for a signed exponent. -/
def pow10 (e : Int) : Rat :=
  if 0 ≤ e then (10 : Rat) ^ e.toNat else 1 / (10 : Rat) ^ (-e).toNat

/-- A JSON number: `-? int frac? exp?` with `int = 0 | [1-9][0-9]*`. -/
def parseNumber (cs : List Char) : Option (Rat × List Char) :=
  let (sign, cs₁) : Rat × List Char :=
    match cs with
    | '-' :: rest => (-1, rest)
    | _ => (1, cs)
  let intPart := cs₁.takeWhile Char.isDigit
  let cs₂ := cs₁.dropWhile Char.isDigit
  if intPart = [] then none
  else if intPart.length > 1 ∧ intPart.headD '0' = '0' then none
  else
    let (fracPart, cs₃) : List Char × List Char :=
      match cs₂ with
      | '.' :: rest => (rest.takeWhile Char.isDigit, rest.dropWhile Char.isDigit)
      | _ => ([], cs₂)
    if cs₂ ≠ cs₃ ∧ fracPart = [] then none
    else
      let hasExp : Bool := match cs₃ with
        | 'e' :: _ => true
        | 'E' :: _ => true
        | _ => false
      let afterE := if hasExp then cs₃.drop 1 else cs₃
      let (expSign, cs₄) : Int × List Char :=
        if hasExp then
          match afterE with
          | '+' :: rest => (1, rest)
          | '-' :: rest => (-1, rest)
          | _ => (1, afterE)
        else (1, afterE)
      let expPart := if hasExp then cs₄.takeWhile Char.isDigit else []
      let cs₅ := if hasExp then cs₄.dropWhile Char.isDigit else cs₄
      if hasExp ∧ expPart = [] then none
      else
        let mantissa : Rat :=
          (digitsVal (intPart ++ fracPart) : Rat) / pow10 (fracPart.length : Int)
        some (sign * mantissa * pow10 (expSign * (digitsVal expPart : Int)), cs₅)

mutual

/-- One JSON value, returning the unconsumed remainder. -/
def parseVal : Nat → List Char → Option (Json × List Char)
  | 0, _ => none
  | fuel + 1, cs =>
    match cs.dropWhile isJsonWs with
    | 'n' :: 'u' :: 'l' :: 'l' :: rest => some (.null, rest)
    | 't' :: 'r' :: 'u' :: 'e' :: rest => some (.bool true, rest)
    | 'f' :: 'a' :: 'l' :: 's' :: 'e' :: rest => some (.bool false, rest)
    | '\"' :: rest =>
      (parseStrBody (fuel + 1) rest).map (fun p => (.str (String.mk p.1), p.2))
    | '[' :: rest =>
      (match rest.dropWhile isJsonWs with
       | ']' :: rest' => some (.arr [], rest')
       | _ => (parseArrItems fuel rest).map (fun p => (.arr p.1, p.2)))
    | '\x7b' :: rest =>
      (match rest.dropWhile isJsonWs with
       | '\x7d' :: rest' => some (.obj [], rest')
       | _ => (parseObjItems fuel rest).map (fun p => (.obj p.1, p.2)))
    | 'N' :: 'a' :: 'N' :: rest => some (.nanConst, rest)
    | 'I' :: 'n' :: 'f' :: 'i' :: 'n' :: 'i' :: 't' :: 'y' :: rest =>
      some (.infConst, rest)
    | '-' :: 'I' :: 'n' :: 'f' :: 'i' :: 'n' :: 'i' :: 't' :: 'y' :: rest =>
      some (.negInfConst, rest)
    | other => (parseNumber other).map (fun p => (.num p.1, p.2))

/-- Comma-separated array items up to the closing bracket. -/
def parseArrItems : Nat → List Char → Option (List Json × List Char)
  | 0, _ => none
  | fuel + 1, cs =>
    match parseVal fuel cs with
    | none => none
    | some (v, rest) =>
      match rest.dropWhile isJsonWs with
      | ']' :: rest' => some ([v], rest')
      | ',' :: rest' =>
        (parseArrItems fuel rest').map (fun p => (v :: p.1, p.2))
      | _ => none

/-- Comma-separated `"key": value` members up to the closing brace. -/
def parseObjItems : Nat → List Char → Option (List (String × Json) × List Char)
  | 0, _ => none
  | fuel + 1, cs =>
    match cs.dropWhile isJsonWs with
    | '\"' :: afterQuote =>
      match parseStrBody (fuel + 1) afterQuote with
      | none => none
      | some (key, afterKey) =>
        match afterKey.dropWhile isJsonWs with
        | ':' :: afterColon =>
          match parseVal fuel afterColon with
          | none => none
          | some (v, rest) =>
            match rest.dropWhile isJsonWs with
            | '\x7d' :: rest' => some ([(String.mk key, v)], rest')
            | ',' :: rest' =>
              (parseObjItems fuel rest').map
                (fun p => ((String.mk key, v) :: p.1, p.2))
            | _ => none
        | _ => none
    | _ => none

end

/-- `json.loads` on text: parse one value and require only trailing
whitespace after it.  The `NaN`/`Infinity`/`-Infinity` constants Python
accepts by default parse to the dedicated constructors. -/
def json_loads (s : String) : Option Json :=
  match parseVal (4 * s.length + 16) s.data with
  | some (v, rest) => if rest.dropWhile isJsonWs = [] then some v else none
  | none => none

/-! ## `json.dumps`

Serialization with CPython's defaults (`ensure_ascii=True`, separators
`", "` and `": "`).  The textual rendering of non-integral numbers
abstracts from CPython's float `repr`; no claim inspects those digits. -/

/-- Upper-case hexadecimal digit…used by `json.dumps`? CPython emits
lower-case `\uXXXX`; we follow it. -/
def hexDigit (n : Nat) : Char :=
  if n < 10 then Char.ofNat (48 + n) else Char.ofNat (87 + n)

/-- Four-digit lower-case hex rendering of `n < 0x10000`. -/
def hex4 (n : Nat) : List Char :=
  [hexDigit (n / 4096 % 16), hexDigit (n / 256 % 16),
   hexDigit (n / 16 % 16), hexDigit (n % 16)]

/-- Escape one character as `json.dumps` does with `ensure_ascii=True`. -/
def escapeChar (c : Char) : List Char :=
  if c = '\"' then ['\\', '\"']
  else if c = '\\' then ['\\', '\\']
  else if c = '\n' then ['\\', 'n']
  else if c = '\t' then ['\\', 't']
  else if c = '\x0d' then ['\\', 'r']
  else if c = '\x08' then ['\\', 'b']
  else if c = '\x0c' then ['\\', 'f']
  else if c.toNat < 0x20 then '\\' :: 'u' :: hex4 c.toNat
  else if c.toNat < 0x7f then [c]
  else if c.toNat < 0x10000 then '\\' :: 'u' :: hex4 c.toNat
  else
    let v := c.toNat - 0x10000
    ('\\' :: 'u' :: hex4 (0xd800 + v / 0x400)) ++
      ('\\' :: 'u' :: hex4 (0xdc00 + v % 0x400))

/-- A JSON string literal, quotes included. -/
def dumpString (s : String) : String :=
  String.mk ('\"' :: s.data.foldr (fun c acc => escapeChar c ++ acc) ['\"'])

/-- Number rendering: integers without a decimal point, other rationals via
their canonical `num/den` form (an abstraction of CPython's float repr). -/
def dumpNum (q : Rat) : String :=
  if q.den = 1 then toString q.num else toString q

mutual

/-- `json.dumps` with default separators. -/
def json_dumps : Json → String
  | .null => "null"
  | .bool true => "true"
  | .bool false => "false"
  | .num q => dumpNum q
  | .str s => dumpString s
  | .arr xs => "[" ++ dumpsArr xs ++ "]"
  | .obj fs => "\x7b" ++ dumpsObj fs ++ "\x7d"
  | .nanConst => "NaN"
  | .infConst => "Infinity"
  | .negInfConst => "-Infinity"

/-- Array items joined by `", "`. -/
def dumpsArr : List Json → String
  | [] => ""
  | [x] => json_dumps x
  | x :: xs => json_dumps x ++ ", " ++ dumpsArr xs

/-- Object members `"key": value` joined by `", "`. -/
def dumpsObj : List (String × Json) → String
  | [] => ""
  | [kv] => dumpString kv.1 ++ ": " ++ json_dumps kv.2
  | kv :: kvs => dumpString kv.1 ++ ": " ++ json_dumps kv.2 ++ ", " ++ dumpsObj kvs

end

/-! ## Responses and the `_json_response` helper -/

/-- The wire-visible content of one JSON response sent by
`_json_response`: status line, the two headers it sets, and the serialized
body.  `payload` records the dictionary that was serialized (it determines
`body`). -/
structure JsonResponse where
  statusCode : Nat
  contentType : String
  contentLength : Nat
  body : String
  payload : List (String × Json)
deriving Repr

/-- ```python
def _json_response(self, status, payload):
    body = json.dumps(payload).encode("utf-8")
    self.send_response(status)
    self.send_header("Content-Type", "application/json")
    self.send_header("Content-Length", str(len(body)))
    self.end_headers()
    self.wfile.write(body)
``` -/
def json_response (status : Nat) (payload : List (String × Json)) : JsonResponse :=
  { statusCode := status
    contentType := "application/json"
    contentLength := (json_dumps (.obj payload)).utf8ByteSize
    body := json_dumps (.obj payload)
    payload := payload }

/-- A handler's reply: either a JSON response via `_json_response`, or the
stdlib `send_error` page (`BaseHTTPRequestHandler.send_error`, which emits
an HTML explanation body with `Content-Type: text/html;charset=utf-8`). -/
inductive HandlerResponse where
  | jsonR (r : JsonResponse) : HandlerResponse
  | errorPage (statusCode : Nat) (message : String) : HandlerResponse
deriving Repr

/-- HTTP status code of a handler reply. -/
def HandlerResponse.status : HandlerResponse → Nat
  | .jsonR r => r.statusCode
  | .errorPage code _ => code

/-- Content-Type of a handler reply. -/
def HandlerResponse.contentTypeOf : HandlerResponse → String
  | .jsonR r => r.contentType
  | .errorPage _ _ => "text/html;charset=utf-8"

/-! ## GET handler -/

/-- ```python
def do_GET(self):
    if self.path not in ("/", "/healthz", "/ip"):
        self.send_error(HTTPStatus.NOT_FOUND, "unknown path")
        return
    try:
        ip = get_public_ip()
    except Exception as exc:
        self._json_response(HTTPStatus.BAD_GATEWAY,
            {"status": "error", "error": f"ip_check_failed: {exc!r}",
             "timestamp": time.time()})
        return
    self._json_response(HTTPStatus.OK,
        {"status": "ok", "public_ip": ip, "timestamp": time.time()})
```
`fetch` is the outcome of the outbound lookup, `now` the value
`time.time()` returns during this request. -/
def do_GET (path : String) (fetch : FetchOutcome) (now : Rat) : HandlerResponse :=
  if ¬ (path = "/" ∨ path = "/healthz" ∨ path = "/ip") then
    .errorPage 404 "unknown path"
  else
    match get_public_ip fetch with
    | .error exc =>
      .jsonR (json_response 502
        [("status", .str "error"), ("error", .str ("ip_check_failed: " ++ exc)),
         ("timestamp", .num now)])
    | .ok ip =>
      .jsonR (json_response 200
        [("status", .str "ok"), ("public_ip", .str ip), ("timestamp", .num now)])

/-! ## POST handler

```python
def do_POST(self):
    if self.path not in ("/invoke", "/"):
        self.send_error(HTTPStatus.NOT_FOUND, "unknown path")
        return
    length = int(self.headers.get("Content-Length", "0") or "0")
    raw = self.rfile.read(length) if length else b"\x7b\x7d"
    try:
        body = json.loads(raw or b"\x7b\x7d")
    except json.JSONDecodeError:
        body = \x7b\x7d
    worker_payload = body.get("payload", \x7b\x7d)
    try:
        ip = get_public_ip(); status = "ok"; error = None
    except Exception as exc:
        ip = None; status = "error"; error = f"ip_check_failed: \x7bexc!r\x7d"
    response = \x7b"status": status, "error": error, "echo": worker_payload,
                "public_ip": ip, "timestamp": time.time()\x7d
    self._json_response(HTTPStatus.OK, response)
```

Request bodies are modelled as text (the source hands `json.loads` the
raw bytes; byte-level UTF-8 decoding is below the granularity of this
embedding). -/

/-- Unhandled Python exceptions the POST handler can raise: `ValueError`
from `int(...)` on a malformed `Content-Length`, `AttributeError` from
`body.get` when the parsed body is not a dict. -/
inductive PyExn where
  | valueError : PyExn
  | attributeError : PyExn
deriving Repr, DecidableEq

/-- The parts of an incoming POST request the handler reads. -/
structure PostRequest where
  path : String
  /-- `self.headers.get("Content-Length", "0")`: `none` when the header is
  absent. -/
  contentLengthHeader : Option String
  /-- The bytes available on the request socket, as text. -/
  body : String

/-- `int(self.headers.get("Content-Length", "0") or "0")`, with `none`
modelling the uncaught `ValueError`. -/
def contentLengthOf (req : PostRequest) : Option Int :=
  pyInt (pyOrStr (req.contentLengthHeader.getD "0") "0")

/-- `io.BufferedReader.read(n)` on `self.rfile`: `n = -1` reads to end of
input, any other negative size raises
`ValueError: read length must be non-negative or -1`, and `n ≥ 0` returns
at most `n` bytes (fewer at end of input). -/
def rfileRead (body : String) (n : Int) : Except PyExn String :=
  if n = -1 then .ok body
  else if n < 0 then .error .valueError
  else .ok (body.take n.toNat)

/-- `self.rfile.read(length) if length else b"\x7b\x7d"`. -/
def rawBodyOf (req : PostRequest) (length : Int) : Except PyExn String :=
  if length ≠ 0 then rfileRead req.body length else .ok "\x7b\x7d"

/-- Python `body.get(key, default)`: only dicts have `.get`; any other
value raises `AttributeError`.  Duplicate keys in JSON source collapse to
the last occurrence, as in a Python dict built by repeated assignment. -/
def dictGet (v : Json) (key : String) (default : Json) : Except PyExn Json :=
  match v with
  | .obj fields =>
    .ok ((((fields.reverse).find? (fun p => p.1 = key)).map Prod.snd).getD default)
  | _ => .error .attributeError

/-- The five-field POST response dictionary, in the insertion order of the
source.  `echo` is the extracted `payload`; the `status`/`error`/
`public_ip` triple reflects the lookup outcome. -/
def postResponseFields (fetch : FetchOutcome) (echo : Json) (now : Rat) :
    List (String × Json) :=
  match get_public_ip fetch with
  | .ok ip =>
    [("status", .str "ok"), ("error", .null), ("echo", echo),
     ("public_ip", .str ip), ("timestamp", .num now)]
  | .error exc =>
    [("status", .str "error"), ("error", .str ("ip_check_failed: " ++ exc)),
     ("echo", echo), ("public_ip", .null), ("timestamp", .num now)]

/-- The POST handler; `.error` is an exception escaping `do_POST`
(the stdlib then aborts the connection without the JSON response). -/
def do_POST (req : PostRequest) (fetch : FetchOutcome) (now : Rat) :
    Except PyExn HandlerResponse :=
  if ¬ (req.path = "/invoke" ∨ req.path = "/") then
    .ok (.errorPage 404 "unknown path")
  else
    match contentLengthOf req with
    | none => .error .valueError
    | some length =>
      match rawBodyOf req length with
      | .error e => .error e
      | .ok raw =>
        match dictGet ((json_loads (pyOrStr raw "\x7b\x7d")).getD (.obj []))
            "payload" (.obj []) with
        | .error e => .error e
        | .ok workerPayload =>
          .ok (.jsonR (json_response 200 (postResponseFields fetch workerPayload now)))

/-! ## Sequential request traces -/

/-- One handled request: the dispatched method with its inputs, the
outcome of the outbound lookup performed while handling it, and the value
`time.time()` returned at response construction. -/
inductive Event where
  | get (path : String) (fetch : FetchOutcome) (now : Rat) : Event
  | post (req : PostRequest) (fetch : FetchOutcome) (now : Rat) : Event

/-- The clock reading sampled while handling the event. -/
def eventTime : Event → Rat
  | .get _ _ now => now
  | .post _ _ now => now

/-- Dispatch one event to its handler. -/
def handle : Event → Except PyExn HandlerResponse
  | .get path fetch now => .ok (do_GET path fetch now)
  | .post req fetch now => do_POST req fetch now

/-- The `timestamp` field of a JSON response, when present and numeric. -/
def timestampOf : HandlerResponse → Option Rat
  | .jsonR r =>
    match (r.payload.find? (fun p => p.1 = "timestamp")).map Prod.snd with
    | some (.num q) => some q
    | _ => none
  | .errorPage _ _ => none

/-- The timestamps of the JSON responses actually sent for a trace of
sequential requests (crashed requests and 404 pages carry none). -/
def responseTimestamps (events : List Event) : List Rat :=
  events.filterMap (fun e => ((handle e).toOption).bind timestampOf)

/-! ## Helper lemmas -/

/-- The POST response dictionary always has exactly the five keys, in
source order, whatever the lookup outcome. -/
theorem postResponseFields_keys (f : FetchOutcome) (echo : Json) (now : Rat) :
    (postResponseFields f echo now).map Prod.fst =
      ["status", "error", "echo", "public_ip", "timestamp"] := by
  rcases h : get_public_ip f with e | ip <;> simp [postResponseFields, h]

/-- Any JSON response `do_POST` returns is the 200 response built from the
five-field dictionary, for some echoed payload. -/
theorem do_POST_ok_inv (req : PostRequest) (f : FetchOutcome) (now : Rat)
    (r : JsonResponse) (h : do_POST req f now = .ok (.jsonR r)) :
    ∃ echo, r = json_response 200 (postResponseFields f echo now) := by
  unfold do_POST at h
  split at h
  · exact absurd h (by simp)
  · split at h
    · exact absurd h (by simp)
    · split at h
      · exact absurd h (by simp)
      · split at h
        · exact absurd h (by simp)
        · rename_i payload _
          exact ⟨payload, by simpa using h.symm⟩

/-! ## Claim theorems -/

/-- C2 counterexample: the claim says `resolve()` raises for every HTTP
status outside the 2xx range, but `raise_for_status` only raises for
4xx/5xx.  A final status of 304 is outside 2xx, yet `get_public_ip`
returns the stripped body instead of raising. -/
theorem resolve_returns_on_304 :
    ¬ (200 ≤ 304 ∧ 304 < 300) ∧
      get_public_ip (.response 304 " 93.184.216.34\n") = .ok "93.184.216.34" :=
  ⟨by decide, rfl⟩

/-- C2 (amended): `get_public_ip` raises exactly when the outbound call
times out, the connection fails, or the final HTTP status lies in
`[400, 600)`; for any other final status it returns the response body with
leading and trailing whitespace stripped. -/
theorem resolve_error_characterization (o : FetchOutcome) :
    ((∃ e, get_public_ip o = .error e) ↔
      o = .timeout ∨ o = .connError ∨
        ∃ st text, o = .response st text ∧ 400 ≤ st ∧ st < 600) ∧
    (∀ st text, o = .response st text → ¬ (400 ≤ st ∧ st < 600) →
      get_public_ip o = .ok (pyStrip text)) := by
  constructor
  · cases o with
    | timeout => simp [get_public_ip]
    | connError => simp [get_public_ip]
    | response st text =>
      by_cases h : 400 ≤ st ∧ st < 600 <;> simp [get_public_ip, h]
  · rintro st text rfl h
    simp [get_public_ip, h]

/-- C2 witness: a 204 No Content reply is returned stripped, not raised. -/
theorem resolve_error_characterization_witness :
    get_public_ip (.response 204 " 10.0.0.1 ") = .ok (pyStrip " 10.0.0.1 ") :=
  (resolve_error_characterization (.response 204 " 10.0.0.1 ")).2
    204 " 10.0.0.1 " rfl (by decide)

/-- C7: every JSON response built by `_json_response` carries
`Content-Type: application/json` and a `Content-Length` equal to the byte
length of its serialized body. -/
theorem json_response_headers_exact (status : Nat) (payload : List (String × Json)) :
    (json_response status payload).contentType = "application/json" ∧
      (json_response status payload).contentLength =
        (json_response status payload).body.utf8ByteSize :=
  ⟨rfl, rfl⟩

/-- C3: on the accepted GET paths, a successful lookup yields HTTP 200
with body `{status: "ok", public_ip: <ip>, timestamp: <now>}`, and the
three paths are handled identically. -/
theorem get_success_response (path : String) (f : FetchOutcome) (ip : String)
    (now : Rat) (hpath : path = "/" ∨ path = "/healthz" ∨ path = "/ip")
    (hok : get_public_ip f = .ok ip) :
    do_GET path f now = .jsonR (json_response 200
      [("status", .str "ok"), ("public_ip", .str ip), ("timestamp", .num now)]) ∧
    (do_GET path f now).status = 200 ∧
    do_GET path f now = do_GET "/" f now ∧
    do_GET path f now = do_GET "/healthz" f now ∧
    do_GET path f now = do_GET "/ip" f now := by
  have key : ∀ p : String, (p = "/" ∨ p = "/healthz" ∨ p = "/ip") →
      do_GET p f now = .jsonR (json_response 200
        [("status", .str "ok"), ("public_ip", .str ip), ("timestamp", .num now)]) := by
    intro p hp
    unfold do_GET
    rw [if_neg (not_not_intro hp), hok]
  have h1 := key path hpath
  refine ⟨h1, by rw [h1]; rfl, ?_, ?_, ?_⟩
  · rw [h1, key "/" (Or.inl rfl)]
  · rw [h1, key "/healthz" (Or.inr (Or.inl rfl))]
  · rw [h1, key "/ip" (Or.inr (Or.inr rfl))]

/-- C3 witness: concrete successful lookup on `/healthz`. -/
theorem get_success_response_witness :
    do_GET "/healthz" (.response 200 " 1.2.3.4\n") 0 = .jsonR (json_response 200
      [("status", .str "ok"), ("public_ip", .str "1.2.3.4"),
       ("timestamp", .num 0)]) :=
  (get_success_response "/healthz" (.response 200 " 1.2.3.4\n") "1.2.3.4" 0
    (Or.inr (Or.inl rfl)) rfl).1

/-- C4: on the accepted GET paths, a failed lookup yields HTTP 502 with
body `{status: "error", error: "ip_check_failed: <details>",
timestamp: <now>}`; the error field is a string, hence non-null. -/
theorem get_failure_response (path : String) (f : FetchOutcome) (e : String)
    (now : Rat) (hpath : path = "/" ∨ path = "/healthz" ∨ path = "/ip")
    (herr : get_public_ip f = .error e) :
    do_GET path f now = .jsonR (json_response 502
      [("status", .str "error"), ("error", .str ("ip_check_failed: " ++ e)),
       ("timestamp", .num now)]) ∧
    (do_GET path f now).status = 502 ∧
    do_GET path f now = do_GET "/" f now ∧
    do_GET path f now = do_GET "/healthz" f now ∧
    do_GET path f now = do_GET "/ip" f now := by
  have key : ∀ p : String, (p = "/" ∨ p = "/healthz" ∨ p = "/ip") →
      do_GET p f now = .jsonR (json_response 502
        [("status", .str "error"), ("error", .str ("ip_check_failed: " ++ e)),
         ("timestamp", .num now)]) := by
    intro p hp
    unfold do_GET
    rw [if_neg (not_not_intro hp), herr]
  have h1 := key path hpath
  refine ⟨h1, by rw [h1]; rfl, ?_, ?_, ?_⟩
  · rw [h1, key "/" (Or.inl rfl)]
  · rw [h1, key "/healthz" (Or.inr (Or.inl rfl))]
  · rw [h1, key "/ip" (Or.inr (Or.inr rfl))]

/-- C4 witness: concrete timed-out lookup on `/ip`. -/
theorem get_failure_response_witness :
    do_GET "/ip" .timeout 1 = .jsonR (json_response 502
      [("status", .str "error"),
       ("error", .str ("ip_check_failed: " ++ "ReadTimeout()")),
       ("timestamp", .num 1)]) :=
  (get_failure_response "/ip" .timeout "ReadTimeout()" 1
    (Or.inr (Or.inr rfl)) rfl).1

/-- C6: requests outside the accepted routes get the stdlib 404 error
page, whose content type is not JSON, for both methods. -/
theorem rejected_path_404 (path : String) (req : PostRequest)
    (f f' : FetchOutcome) (now now' : Rat)
    (hget : ¬ (path = "/" ∨ path = "/healthz" ∨ path = "/ip"))
    (hpost : ¬ (req.path = "/invoke" ∨ req.path = "/")) :
    do_GET path f now = .errorPage 404 "unknown path" ∧
    (do_GET path f now).status = 404 ∧
    (do_GET path f now).contentTypeOf ≠ "application/json" ∧
    do_POST req f' now' = .ok (.errorPage 404 "unknown path") := by
  have h1 : do_GET path f now = .errorPage 404 "unknown path" := by
    unfold do_GET; rw [if_pos hget]
  have h2 : do_POST req f' now' = .ok (.errorPage 404 "unknown path") := by
    unfold do_POST; rw [if_pos hpost]
  exact ⟨h1, by rw [h1]; rfl, by rw [h1]; decide, h2⟩

/-- C6 witness: `/foo` is rejected for GET and POST alike. -/
theorem rejected_path_404_witness :
    do_GET "/foo" .timeout 0 = .errorPage 404 "unknown path" ∧
    (do_GET "/foo" .timeout 0).status = 404 ∧
    (do_GET "/foo" .timeout 0).contentTypeOf ≠ "application/json" ∧
    do_POST ⟨"/foo", some "abc", "xyz"⟩ .timeout 0 =
      .ok (.errorPage 404 "unknown path") :=
  rejected_path_404 "/foo" ⟨"/foo", some "abc", "xyz"⟩ .timeout .timeout 0 0
    (by decide) (by decide)

/-- C1 counterexample: a POST to `/invoke` whose body is the valid JSON
value `123` (not an object) makes `body.get("payload", ...)` raise
`AttributeError`; no HTTP 200 JSON response is produced, refuting the
claim for arbitrary valid JSON bodies. -/
theorem post_valid_nonobject_body_crashes :
    (∃ q, json_loads "123" = some (.num q)) ∧
    do_POST ⟨"/invoke", some "3", "123"⟩ (.response 200 "1.2.3.4") 0 =
      .error .attributeError :=
  ⟨⟨_, rfl⟩, rfl⟩

/-- Reads never raise for a size of `-1` or a non-negative size, so the
`rawBodyOf … = .ok raw` hypotheses below say exactly that the parsed
Content-Length is `-1` or non-negative. -/
theorem rawBodyOf_ok (req : PostRequest) (n : Int) (hn : n = -1 ∨ 0 ≤ n) :
    ∃ raw, rawBodyOf req n = .ok raw := by
  unfold rawBodyOf rfileRead
  rcases hn with rfl | hn
  · exact ⟨req.body, rfl⟩
  · by_cases h0 : n = 0
    · subst h0; exact ⟨_, rfl⟩
    · refine ⟨req.body.take n.toNat, ?_⟩
      rw [if_pos h0, if_neg (by omega), if_neg (by omega)]

/-- C1 (amended): for every POST to `/` or `/invoke` whose Content-Length
header parses as an integer whose body read succeeds (the length is `-1`
or non-negative; any other negative length makes `rfile.read` raise
`ValueError`), and whose read body is absent, malformed, or a valid JSON
object, the handler responds HTTP 200 with a JSON body of exactly the
fields status, error, echo, public_ip, timestamp, even when the IP lookup
fails. -/
theorem post_object_body_200_shape (req : PostRequest) (f : FetchOutcome)
    (now : Rat) (n : Int) (raw : String)
    (hpath : req.path = "/" ∨ req.path = "/invoke")
    (hlen : contentLengthOf req = some n)
    (hraw : rawBodyOf req n = .ok raw)
    (hobj : ∀ v, json_loads (pyOrStr raw "\x7b\x7d") = some v →
      ∃ fs, v = .obj fs) :
    ∃ r, do_POST req f now = .ok (.jsonR r) ∧ r.statusCode = 200 ∧
      r.payload.map Prod.fst =
        ["status", "error", "echo", "public_ip", "timestamp"] := by
  unfold do_POST
  rw [if_neg (not_not_intro (Or.symm hpath)), hlen]
  dsimp only
  rw [hraw]
  dsimp only
  have hdict : ∃ w, dictGet ((json_loads (pyOrStr raw "\x7b\x7d")).getD (.obj []))
      "payload" (.obj []) = .ok w := by
    cases hv : json_loads (pyOrStr raw "\x7b\x7d") with
    | none => exact ⟨_, rfl⟩
    | some v =>
      obtain ⟨fs, rfl⟩ := hobj v hv
      exact ⟨_, rfl⟩
  obtain ⟨w, hw⟩ := hdict
  rw [hw]
  exact ⟨_, rfl, rfl, postResponseFields_keys f w now⟩

/-- C1 witness: a bodyless POST to `/invoke` under a timed-out lookup
still gets the five-field 200 response. -/
theorem post_object_body_200_shape_witness :
    ∃ r, do_POST ⟨"/invoke", none, ""⟩ .timeout 3 = .ok (.jsonR r) ∧
      r.statusCode = 200 ∧
      r.payload.map Prod.fst =
        ["status", "error", "echo", "public_ip", "timestamp"] :=
  post_object_body_200_shape ⟨"/invoke", none, ""⟩ .timeout 3 0 "\x7b\x7d"
    (Or.inr rfl) rfl rfl
    (by
      intro v hv
      have hmt : json_loads (pyOrStr "\x7b\x7d" "\x7b\x7d") =
          some (.obj []) := rfl
      exact ⟨[], Option.some.inj (hv.symm.trans hmt)⟩)

/-- C5 counterexample: a POST whose body is not valid JSON but whose
Content-Length header is not an integer raises `ValueError` instead of
responding 200 with `echo: {}`. -/
theorem post_invalid_body_bad_header_crashes :
    json_loads "][" = none ∧
    do_POST ⟨"/", some " 12 kb", "]["⟩ (.response 200 "1.2.3.4") 0 =
      .error .valueError :=
  ⟨rfl, rfl⟩

/-- C5 (amended): for every POST to an accepted path whose Content-Length
header parses as an integer whose body read succeeds (`-1` or
non-negative), when the read body fails to parse as JSON — note Python's
parser does accept the `NaN`/`Infinity` constants — or the Content-Length
is zero or the header absent, the handler treats the body as an empty
object, responds HTTP 200, and echoes `{}`; no parse error reaches the
client. -/
theorem post_parse_fallback_echo_empty (req : PostRequest) (f : FetchOutcome)
    (now : Rat) (n : Int) (raw : String)
    (hpath : req.path = "/" ∨ req.path = "/invoke")
    (hlen : contentLengthOf req = some n)
    (hraw : rawBodyOf req n = .ok raw)
    (hcond : json_loads (pyOrStr raw "\x7b\x7d") = none ∨ n = 0 ∨
      req.contentLengthHeader = none) :
    do_POST req f now =
      .ok (.jsonR (json_response 200 (postResponseFields f (.obj []) now))) ∧
    (postResponseFields f (.obj []) now).find? (fun p => p.1 = "echo") =
      some ("echo", .obj []) := by
  constructor
  · unfold do_POST
    rw [if_neg (not_not_intro (Or.symm hpath)), hlen]
    dsimp only
    rw [hraw]
    dsimp only
    have hn0 : n = 0 → raw = "\x7b\x7d" := by
      rintro rfl
      have h00 : rawBodyOf req 0 = .ok "\x7b\x7d" := rfl
      exact (Except.ok.inj (h00.symm.trans hraw)).symm
    have hecho : dictGet ((json_loads (pyOrStr raw "\x7b\x7d")).getD (.obj []))
        "payload" (.obj []) = .ok (.obj []) := by
      rcases hcond with hnone | hn | hhdr
      · rw [hnone]; rfl
      · rw [hn0 hn]; rfl
      · have h0 : contentLengthOf req = some 0 := by
          unfold contentLengthOf; rw [hhdr]; rfl
        rw [hn0 (Option.some.inj (h0.symm.trans hlen)).symm]; rfl
    rw [hecho]
  · rcases h : get_public_ip f with e | ip <;> simp only [postResponseFields, h] <;> rfl

/-- C5 witness: a malformed body with a well-formed Content-Length gets
the 200 response whose echo is the empty object. -/
theorem post_parse_fallback_echo_empty_witness :
    do_POST ⟨"/", some "8", "not json"⟩ .connError 2 =
      .ok (.jsonR (json_response 200
        (postResponseFields .connError (.obj []) 2))) :=
  (post_parse_fallback_echo_empty ⟨"/", some "8", "not json"⟩ .connError 2 8
    "not json" (Or.inl rfl) rfl rfl (Or.inl rfl)).1

/-- C9: a present, non-empty, non-integer Content-Length header makes
`int(...)` raise `ValueError` before any response is written; the fallback
to zero applies exactly to an absent or empty header. -/
theorem post_nonint_content_length_raises (req : PostRequest)
    (f : FetchOutcome) (now : Rat) (s : String)
    (hpath : req.path = "/" ∨ req.path = "/invoke")
    (hdr : req.contentLengthHeader = some s) (hne : s ≠ "")
    (hbad : pyInt s = none) :
    do_POST req f now = .error .valueError ∧
    (∀ r, do_POST req f now ≠ .ok r) ∧
    (∀ req' : PostRequest, (req'.contentLengthHeader = none ∨
        req'.contentLengthHeader = some "") → contentLengthOf req' = some 0) := by
  have hcl : contentLengthOf req = none := by
    unfold contentLengthOf
    rw [hdr, Option.getD_some]
    unfold pyOrStr
    rw [if_neg hne]
    exact hbad
  have h1 : do_POST req f now = .error .valueError := by
    unfold do_POST
    rw [if_neg (not_not_intro (Or.symm hpath)), hcl]
  refine ⟨h1, ?_, ?_⟩
  · intro r h
    rw [h1] at h
    exact absurd h (by simp)
  · intro req' h'
    unfold contentLengthOf
    rcases h' with h' | h' <;> rw [h'] <;> rfl

/-- C9 witness: header value `12x` crashes a POST to `/`. -/
theorem post_nonint_content_length_raises_witness :
    do_POST ⟨"/", some "12x", "\x7b\x7d"⟩ .timeout 0 = .error .valueError :=
  (post_nonint_content_length_raises ⟨"/", some "12x", "\x7b\x7d"⟩ .timeout 0
    "12x" (Or.inl rfl) rfl (by decide) rfl).1

/-- C10: GET bodies never mix success and failure fields, while POST
bodies always carry all five keys, with `error` null on success and
`public_ip` null on failure. -/
theorem response_key_disjointness :
    (∀ (path : String) (f : FetchOutcome) (now : Rat) (ip : String),
      (path = "/" ∨ path = "/healthz" ∨ path = "/ip") →
      get_public_ip f = .ok ip →
      ∃ r, do_GET path f now = .jsonR r ∧
        r.payload.map Prod.fst = ["status", "public_ip", "timestamp"] ∧
        "error" ∉ r.payload.map Prod.fst) ∧
    (∀ (path : String) (f : FetchOutcome) (now : Rat) (e : String),
      (path = "/" ∨ path = "/healthz" ∨ path = "/ip") →
      get_public_ip f = .error e →
      ∃ r, do_GET path f now = .jsonR r ∧
        r.payload.map Prod.fst = ["status", "error", "timestamp"] ∧
        "public_ip" ∉ r.payload.map Prod.fst) ∧
    (∀ (req : PostRequest) (f : FetchOutcome) (now : Rat) (r : JsonResponse),
      do_POST req f now = .ok (.jsonR r) →
      r.payload.map Prod.fst =
        ["status", "error", "echo", "public_ip", "timestamp"] ∧
      (∀ ip, get_public_ip f = .ok ip →
        (r.payload.find? (fun p => p.1 = "error")).map Prod.snd =
          some .null) ∧
      (∀ e, get_public_ip f = .error e →
        (r.payload.find? (fun p => p.1 = "public_ip")).map Prod.snd =
          some .null)) := by
  refine ⟨?_, ?_, ?_⟩
  · intro path f now ip hpath hok
    refine ⟨json_response 200 [("status", .str "ok"), ("public_ip", .str ip),
      ("timestamp", .num now)], ?_, rfl, by simp [json_response]⟩
    unfold do_GET
    rw [if_neg (not_not_intro hpath), hok]
  · intro path f now e hpath herr
    refine ⟨json_response 502 [("status", .str "error"),
      ("error", .str ("ip_check_failed: " ++ e)), ("timestamp", .num now)],
      ?_, rfl, by simp [json_response]⟩
    unfold do_GET
    rw [if_neg (not_not_intro hpath), herr]
  · intro req f now r hr
    obtain ⟨echo, rfl⟩ := do_POST_ok_inv req f now r hr
    refine ⟨postResponseFields_keys f echo now, ?_, ?_⟩
    · intro ip hok
      simp only [json_response, postResponseFields, hok]
      rfl
    · intro e herr
      simp only [json_response, postResponseFields, herr]
      rfl

/-- C10 witness: a successful GET body has no error key. -/
theorem response_key_disjointness_witness :
    ∃ r, do_GET "/" (.response 200 "7.7.7.7") 4 = .jsonR r ∧
      r.payload.map Prod.fst = ["status", "public_ip", "timestamp"] ∧
      "error" ∉ r.payload.map Prod.fst :=
  response_key_disjointness.1 "/" (.response 200 "7.7.7.7") 4 "7.7.7.7"
    (Or.inl rfl) rfl

/-! ## Timestamp monotonicity (C8) -/

/-- Mapping a monotone measure through `filterMap` preserves sortedness
when every produced value equals the measure of its source. -/
theorem pairwise_filterMap_mono {α : Type} (f : α → Option Rat) (g : α → Rat)
    (hf : ∀ a b, f a = some b → b = g a) :
    ∀ l : List α, l.Pairwise (fun x y => g x ≤ g y) →
      (l.filterMap f).Pairwise (· ≤ ·) := by
  intro l hl
  induction l with
  | nil => simp
  | cons a l ih =>
    rw [List.pairwise_cons] at hl
    rw [List.filterMap_cons]
    cases hfa : f a with
    | none => exact ih hl.2
    | some b =>
      refine List.Pairwise.cons ?_ (ih hl.2)
      intro b' hb'
      rcases List.mem_filterMap.mp hb' with ⟨a', ha', hfa'⟩
      rw [hf a b hfa, hf a' b' hfa']
      exact hl.1 a' ha'

/-- Timestamp of the GET failure body. -/
theorem timestampOf_get_err (e : String) (now : Rat) :
    timestampOf (.jsonR (json_response 502
      [("status", .str "error"), ("error", .str ("ip_check_failed: " ++ e)),
       ("timestamp", .num now)])) = some now := rfl

/-- Timestamp of the GET success body. -/
theorem timestampOf_get_ok (ip : String) (now : Rat) :
    timestampOf (.jsonR (json_response 200
      [("status", .str "ok"), ("public_ip", .str ip),
       ("timestamp", .num now)])) = some now := rfl

/-- Timestamp of the POST body, whatever the lookup outcome and echo. -/
theorem timestampOf_post_fields (f : FetchOutcome) (echo : Json) (now : Rat) :
    timestampOf (.jsonR (json_response 200 (postResponseFields f echo now))) =
      some now := by
  rcases h : get_public_ip f with e | ip <;> simp only [postResponseFields, h] <;> rfl

/-- Every timestamp a handled event emits is the clock value sampled
while handling it. -/
theorem handled_timestamp_eq (e : Event) (t : Rat)
    (h : ((handle e).toOption).bind timestampOf = some t) : t = eventTime e := by
  cases e with
  | get path f now =>
    have h' : timestampOf (do_GET path f now) = some t := by
      simpa [handle, Except.toOption] using h
    unfold do_GET at h'
    split at h'
    · exact absurd h' (by simp [timestampOf])
    · rcases hf : get_public_ip f with er | ip <;> rw [hf] at h'
      · exact (Option.some.inj ((timestampOf_get_err er now).symm.trans h')).symm
      · exact (Option.some.inj ((timestampOf_get_ok ip now).symm.trans h')).symm
  | post req f now =>
    cases hr : do_POST req f now with
    | error ex => simp [handle, hr, Except.toOption] at h
    | ok resp =>
      cases resp with
      | errorPage c m => simp [handle, hr, Except.toOption, timestampOf] at h
      | jsonR jr =>
        obtain ⟨echo, rfl⟩ := do_POST_ok_inv req f now jr hr
        have h' : timestampOf (.jsonR (json_response 200
            (postResponseFields f echo now))) = some t := by
          simpa [handle, hr, Except.toOption] using h
        exact (Option.some.inj
          ((timestampOf_post_fields f echo now).symm.trans h')).symm

/-- C8: across a trace of sequentially handled requests whose sampled
clock values are non-decreasing, the timestamps of the JSON responses are
non-decreasing. -/
theorem timestamps_monotone (events : List Event)
    (h : events.Pairwise (fun a b => eventTime a ≤ eventTime b)) :
    (responseTimestamps events).Pairwise (· ≤ ·) := by
  unfold responseTimestamps
  refine pairwise_filterMap_mono _ eventTime ?_ events h
  intro e t ht
  exact handled_timestamp_eq e t ht

/-- C8 witness: a concrete two-request trace. -/
theorem timestamps_monotone_witness :
    (responseTimestamps [.get "/" (.response 200 "8.8.8.8") 1,
      .post ⟨"/invoke", none, ""⟩ .timeout 2]).Pairwise (· ≤ ·) :=
  timestamps_monotone
    [.get "/" (.response 200 "8.8.8.8") 1, .post ⟨"/invoke", none, ""⟩ .timeout 2]
    (by simp [List.pairwise_cons, eventTime])

end Worker
